import Mathlib

/-!
Verification development for the wildfire-risk dataset pipeline.

Shallow embedding of the repository's dataset-construction script
(construir_dataset_ml.py), the trained-model metadata (entrenar_modelo.py)
and the sensor inference wrapper (predecir_con_sensores.py).

Conventions of the embedding:
* calendar dates are integers counting days since 1970-01-01 (as pandas
  timestamps do, at day granularity);
* real-valued data (coordinates, weather variables, probabilities) is
  embedded as exact rationals `ℚ`; a separate model of IEEE-754 binary64
  ("float64") rounding over exact rationals is given at the end for the
  claims that concern binary floating-point behaviour of the grid keys;
* a missing value (pandas `NaN`) is `Option.none`;
* the realized pseudo-random draws of the negative sampler (np.random with
  the fixed seed 42) are passed in as an explicit list of drawn
  (date, grid_lat, grid_lon) keys, one entry per loop iteration;
* the weather cache built from the Open-Meteo responses is passed in as an
  explicit association list keyed by (grid_lat, grid_lon), since the HTTP
  responses are external input to the program.
-/

set_option maxRecDepth 20000

/-! ## Calendar arithmetic

pandas exposes `.dt.year`, `.dt.month`, `.dt.dayofyear` on the `fecha`
column (construir_dataset_ml.py lines 231-235).  The embedding computes
them from the day number with the standard proleptic-Gregorian
civil-from-days algorithm. -/

/-- Gregorian (year, month, day) of a day number counted from 1970-01-01. -/
def civilFromDays (z : ℤ) : ℤ × ℤ × ℤ :=
  let z' := z + 719468
  let era := z'.fdiv 146097
  let doe := z'.emod 146097
  let yoe := (doe - doe.fdiv 1460 + doe.fdiv 36524 - doe.fdiv 146096).fdiv 365
  let y := yoe + era * 400
  let doy := doe - (365 * yoe + yoe.fdiv 4 - yoe.fdiv 100)
  let mp := (5 * doy + 2).fdiv 153
  let d := doy - (153 * mp + 2).fdiv 5 + 1
  let m := mp + (if mp < 10 then 3 else -9)
  (y + (if m ≤ 2 then 1 else 0), m, d)

/-- Day number (from 1970-01-01) of a Gregorian (year, month, day). -/
def daysFromCivil (y m d : ℤ) : ℤ :=
  let y' := y - (if m ≤ 2 then 1 else 0)
  let era := y'.fdiv 400
  let yoe := y' - era * 400
  let doy := (153 * (m + (if 2 < m then -3 else 9)) + 2).fdiv 5 + d - 1
  let doe := yoe * 365 + yoe.fdiv 4 - yoe.fdiv 100 + doy
  era * 146097 + doe - 719468

/-- Calendar year of a day number (`fecha.dt.year`). -/
def yearOf (z : ℤ) : ℤ := (civilFromDays z).1

/-- Calendar month, 1-12, of a day number (`fecha.dt.month`). -/
def monthOf (z : ℤ) : ℤ := (civilFromDays z).2.1

/-- Day of year, 1-366, of a day number (`fecha.dt.dayofyear`). -/
def dayOfYearOf (z : ℤ) : ℤ := z - daysFromCivil (yearOf z) 1 1 + 1

/-- Dry-season flag: `mes.isin([12, 1, 2, 6, 7, 8]).astype(int)`
(construir_dataset_ml.py line 235). -/
def estacionSeca (m : ℤ) : ℤ :=
  if m = 12 ∨ m = 1 ∨ m = 2 ∨ m = 6 ∨ m = 7 ∨ m = 8 then 1 else 0

/-! ## Configuration (construir_dataset_ml.py lines 14-26) -/

/-- Bounding box of Cali, southern edge. -/
def LAT_MIN : ℚ := 33/10
/-- Bounding box of Cali, northern edge. -/
def LAT_MAX : ℚ := 355/100
/-- Bounding box of Cali, western edge. -/
def LON_MIN : ℚ := -7665/100
/-- Bounding box of Cali, eastern edge. -/
def LON_MAX : ℚ := -7645/100
/-- Spatial grid cell size in degrees (~500 m). -/
def GRID_SIZE : ℚ := 5/1000
/-- Day number of START_DATE = 2012-01-01. -/
def START_DAY : ℤ := daysFromCivil 2012 1 1
/-- Day number of END_DATE = 2025-12-31. -/
def END_DAY : ℤ := daysFromCivil 2025 12 31
/-- Negative samples drawn per positive event: the ratio constant of
line 26 of the source, written `negativeRatio` here. -/
def negativeRatio : ℕ := 5

/-! ## Rounding and spatial discretization -/

/-- Round to the nearest integer, ties to even: the rounding used by
numpy's `.round()` and Python's `round`. -/
def roundHalfEven (q : ℚ) : ℤ :=
  if q - ⌊q⌋ < 1/2 then ⌊q⌋
  else if 1/2 < q - ⌊q⌋ then ⌊q⌋ + 1
  else if 2 ∣ ⌊q⌋ then ⌊q⌋ else ⌊q⌋ + 1

/-- The spatial discretizer `(value / GRID_SIZE).round() * GRID_SIZE`
(construir_dataset_ml.py lines 49-50), in exact rational arithmetic. -/
def discretize (x : ℚ) : ℚ := (roundHalfEven (x / GRID_SIZE) : ℚ) * GRID_SIZE

/-- Python's `round(x, 4)` (construir_dataset_ml.py line 71), in exact
rational arithmetic. -/
def round4 (x : ℚ) : ℚ := (roundHalfEven (x * 10000) : ℚ) / 10000

/-- `np.arange(start, stop, step)` in exact arithmetic: element count. -/
def arangeLen (start stop step : ℚ) : ℕ := (⌈(stop - start) / step⌉).toNat

/-- `lats = np.arange(LAT_MIN, LAT_MAX, GRID_SIZE)` (line 69). -/
def lats : List ℚ :=
  (List.range (arangeLen LAT_MIN LAT_MAX GRID_SIZE)).map
    (fun i => LAT_MIN + (i : ℚ) * GRID_SIZE)

/-- `lons = np.arange(LON_MIN, LON_MAX, GRID_SIZE)` (line 70). -/
def lons : List ℚ :=
  (List.range (arangeLen LON_MIN LON_MAX GRID_SIZE)).map
    (fun i => LON_MIN + (i : ℚ) * GRID_SIZE)

/-- `grid_cells = [(round(lat, 4), round(lon, 4)) for lat in lats for lon
in lons]` (line 71). -/
def gridCells : List (ℚ × ℚ) :=
  lats.flatMap (fun la => lons.map (fun lo => (round4 la, round4 lo)))

/-- `date_range = pd.date_range(START_DATE, END_DATE, freq='D')` (line 74),
as day numbers, both endpoints included. -/
def dateRange : List ℤ :=
  (List.range (END_DAY - START_DAY + 1).toNat).map (fun i => START_DAY + (i : ℤ))

/-! ## Fire detections and positive events (lines 34-61) -/

/-- One raw FIRMS detection row as loaded from the CSV; `acq_date`,
`latitude`, `longitude` may fail to parse (`errors='coerce'` can yield
NaT/NaN), hence `Option`. -/
structure RawFire where
  acq_date : Option ℤ
  latitude : Option ℚ
  longitude : Option ℚ
  brightness : ℚ
  frp : ℚ
  confidence : ℚ

/-- A detection that survived `dropna(subset=['acq_date', 'latitude',
'longitude'])` (line 37). -/
structure Fire where
  acq_date : ℤ
  latitude : ℚ
  longitude : ℚ
  brightness : ℚ
  frp : ℚ
  confidence : ℚ

/-- Lines 36-37: coerce dates and drop rows missing date or coordinates. -/
def cleanFires (raw : List RawFire) : List Fire :=
  raw.filterMap (fun r =>
    match r.acq_date, r.latitude, r.longitude with
    | some d, some la, some lo => some ⟨d, la, lo, r.brightness, r.frp, r.confidence⟩
    | _, _, _ => none)

/-- Line 38: `fires.sort_values('acq_date')` (modelled as a stable sort
by date). -/
def sortFires (fs : List Fire) : List Fire :=
  fs.mergeSort (fun a b => decide (a.acq_date ≤ b.acq_date))

/-- The (date_only, grid_lat, grid_lon) key of the event tables. -/
abbrev Key := ℤ × ℚ × ℚ

/-- The (date_only, grid_lat, grid_lon) key of one detection
(lines 49-51). -/
def fireKey (f : Fire) : Key :=
  (f.acq_date, discretize f.latitude, discretize f.longitude)

/-- Lines 54-59: `eventos_positivos`, one row per distinct (date_only,
grid_lat, grid_lon) group, label `incendio = 1`.  The aggregated
brightness/frp/confidence columns of the groupby are modelled away: the
source itself discards them at line 104, where only
`['date_only', 'grid_lat', 'grid_lon', 'incendio']` flow onward, so a
positive event is its key.  (pandas orders groups by sorted key; the
embedding keeps them in another order, which no downstream step of the
source observes after its own re-sort at line 108.) -/
def eventosPositivos (raw : List RawFire) : List Key :=
  ((sortFires (cleanFires raw)).map fireKey).dedup

/-! ## Negative sampling (lines 77-97) -/

/-- Lines 81-94: one loop iteration per drawn key; the draw is accepted
only when no positive event has that exact (date_only, grid_lat,
grid_lon) key, and a rejected draw is discarded (no retry).  `draws` is
the realized pseudo-random sequence, one key per iteration. -/
def negativeSamples (pos : List Key) (draws : List Key) : List Key :=
  draws.filter (fun k => decide (k ∉ pos))

/-- One row of the combined event table (line 103-108): key plus label. -/
structure EventRow where
  date_only : ℤ
  grid_lat : ℚ
  grid_lon : ℚ
  incendio : ℕ

instance : DecidableEq EventRow := fun a b =>
  decidable_of_iff
    (a.date_only = b.date_only ∧ a.grid_lat = b.grid_lat ∧
      a.grid_lon = b.grid_lon ∧ a.incendio = b.incendio)
    (by cases a; cases b; simp)

/-- Lines 103-108: concatenate positives (label 1) and negatives
(label 0) and sort by date. -/
def dataset (raw : List RawFire) (draws : List Key) : List EventRow :=
  (((eventosPositivos raw).map (fun k => EventRow.mk k.1 k.2.1 k.2.2 1)) ++
    ((negativeSamples (eventosPositivos raw) draws).map
      (fun k => EventRow.mk k.1 k.2.1 k.2.2 0))).mergeSort
    (fun a b => decide (a.date_only ≤ b.date_only))

/-! ## Weather series and feature join (lines 119-223) -/

/-- One daily row of an Open-Meteo response for one grid cell
(lines 127-137).  Individual variables can be null in the payload, hence
`Option`; `date` is the parsed `time` field. -/
structure WeatherEntry where
  date : ℤ
  temperature_2m_max : Option ℚ
  temperature_2m_min : Option ℚ
  temperature_2m_mean : Option ℚ
  relative_humidity_2m_mean : Option ℚ
  precipitation_sum : Option ℚ
  wind_speed_10m_max : Option ℚ

instance : DecidableEq WeatherEntry := fun a b =>
  decidable_of_iff
    (a.date = b.date ∧ a.temperature_2m_max = b.temperature_2m_max ∧
      a.temperature_2m_min = b.temperature_2m_min ∧
      a.temperature_2m_mean = b.temperature_2m_mean ∧
      a.relative_humidity_2m_mean = b.relative_humidity_2m_mean ∧
      a.precipitation_sum = b.precipitation_sum ∧
      a.wind_speed_10m_max = b.wind_speed_10m_max)
    (by cases a; cases b; simp)

/-- The in-memory `weather_cache` (lines 145-158): grid cells whose
download succeeded, each with its daily series. -/
abbrev WeatherCache := List ((ℚ × ℚ) × List WeatherEntry)

/-- `(lat, lon) in weather_cache` plus `weather_cache[(lat, lon)]`. -/
def cacheLookup (cache : WeatherCache) (cell : ℚ × ℚ) : Option (List WeatherEntry) :=
  (cache.find? (fun p => decide (p.1 = cell))).map Prod.snd

/-- Lines 170-175, `get_precip_accumulated`: sum of `precipitation_sum`
over the series entries with `target - days ≤ date < target`.  A null
entry contributes 0 (pandas `.sum()` skips NaN), and the sum of an empty
selection is 0. -/
def getPrecipAccumulated (wdf : List WeatherEntry) (target : ℤ) (days : ℤ) : ℚ :=
  ((wdf.filter (fun e => decide (target - days ≤ e.date ∧ e.date < target))).map
    (fun e => e.precipitation_sum.getD 0)).sum

/-- The nine weather feature columns attached to one event row
(lines 191-213). -/
structure Features where
  temperatura_max : Option ℚ
  temperatura_min : Option ℚ
  temperatura_media : Option ℚ
  humedad_relativa : Option ℚ
  viento_max : Option ℚ
  precipitacion_dia : Option ℚ
  precipitacion_7d : Option ℚ
  precipitacion_14d : Option ℚ
  precipitacion_30d : Option ℚ

instance : DecidableEq Features := fun a b =>
  decidable_of_iff
    (a.temperatura_max = b.temperatura_max ∧ a.temperatura_min = b.temperatura_min ∧
      a.temperatura_media = b.temperatura_media ∧
      a.humedad_relativa = b.humedad_relativa ∧ a.viento_max = b.viento_max ∧
      a.precipitacion_dia = b.precipitacion_dia ∧
      a.precipitacion_7d = b.precipitacion_7d ∧
      a.precipitacion_14d = b.precipitacion_14d ∧
      a.precipitacion_30d = b.precipitacion_30d)
    (by cases a; cases b; simp)

/-- Lines 203-213: every weather feature set to NaN. -/
def noneFeatures : Features := ⟨none, none, none, none, none, none, none, none, none⟩

/-- Lines 186-213: the features of one event row.  If the row's cell is in
the cache and the series has a row for the event date (the first match,
as `.values[0]` takes it), the same-day fields are copied from that row
and the three accumulators are computed; otherwise all nine are NaN.  The
accumulators are plain numbers (never NaN) whenever this branch is
taken. -/
def computeFeatures (cache : WeatherCache) (row : EventRow) : Features :=
  match cacheLookup cache (row.grid_lat, row.grid_lon) with
  | none => noneFeatures
  | some wdf =>
    match wdf.find? (fun e => decide (e.date = row.date_only)) with
    | none => noneFeatures
    | some e =>
      { temperatura_max := e.temperature_2m_max
        temperatura_min := e.temperature_2m_min
        temperatura_media := e.temperature_2m_mean
        humedad_relativa := e.relative_humidity_2m_mean
        viento_max := e.wind_speed_10m_max
        precipitacion_dia := e.precipitation_sum
        precipitacion_7d := some (getPrecipAccumulated wdf row.date_only 7)
        precipitacion_14d := some (getPrecipAccumulated wdf row.date_only 14)
        precipitacion_30d := some (getPrecipAccumulated wdf row.date_only 30) }

/-- One event row together with its weather features (line 218,
`pd.concat([dataset, weather_df_final], axis=1)`). -/
structure EnrichedRow where
  event : EventRow
  feat : Features

instance : DecidableEq EnrichedRow := fun a b =>
  decidable_of_iff (a.event = b.event ∧ a.feat = b.feat)
    (by cases a; cases b; simp)

/-- Lines 178-218: attach features to every row of the combined event
table. -/
def enrichedRows (raw : List RawFire) (draws : List Key) (cache : WeatherCache) :
    List EnrichedRow :=
  (dataset raw draws).map (fun r => ⟨r, computeFeatures cache r⟩)

/-- The completeness predicate of lines 220-223: `dropna(subset=
['temperatura_media', 'humedad_relativa', 'precipitacion_7d'])` keeps a
row iff these three are defined. -/
def completo (r : EnrichedRow) : Bool :=
  r.feat.temperatura_media.isSome && r.feat.humedad_relativa.isSome &&
    r.feat.precipitacion_7d.isSome

/-- Lines 220-223: `dataset_final` after the completeness filter. -/
def datasetFinal (raw : List RawFire) (draws : List Key) (cache : WeatherCache) :
    List EnrichedRow :=
  (enrichedRows raw draws cache).filter completo

/-! ## Output serialization (lines 231-253) -/

/-- Lines 243-250: `cols_order`, the fixed column order of the saved
dataset. -/
def cols_order : List String :=
  ["fecha", "año", "mes", "dia_año", "estacion_seca",
   "grid_lat", "grid_lon",
   "temperatura_max", "temperatura_min", "temperatura_media",
   "humedad_relativa", "viento_max",
   "precipitacion_dia", "precipitacion_7d", "precipitacion_14d", "precipitacion_30d",
   "incendio"]

/-- One serialized output row, cells in `cols_order` order (lines 231-253;
the temporal features of lines 231-235 are derived from `date_only`, and
`fecha` is serialized as its day number). -/
def serializeRow (r : EnrichedRow) : List (Option ℚ) :=
  [some (r.event.date_only : ℚ),
   some (yearOf r.event.date_only : ℚ),
   some (monthOf r.event.date_only : ℚ),
   some (dayOfYearOf r.event.date_only : ℚ),
   some (estacionSeca (monthOf r.event.date_only) : ℚ),
   some r.event.grid_lat,
   some r.event.grid_lon,
   r.feat.temperatura_max,
   r.feat.temperatura_min,
   r.feat.temperatura_media,
   r.feat.humedad_relativa,
   r.feat.viento_max,
   r.feat.precipitacion_dia,
   r.feat.precipitacion_7d,
   r.feat.precipitacion_14d,
   r.feat.precipitacion_30d,
   some (r.event.incendio : ℚ)]

/-! ## Trainer metadata and inference wrapper
(entrenar_modelo.py lines 37-53 and 147-156; predecir_con_sensores.py
lines 84-137) -/

/-- entrenar_modelo.py lines 37-44: the sensor-sourced feature names. -/
def SENSOR_FEATURES : List String :=
  ["temperatura_media", "humedad_relativa", "viento_max",
   "precipitacion_7d", "precipitacion_14d", "precipitacion_30d"]

/-- entrenar_modelo.py lines 47-51: the temporal feature names. -/
def TEMPORAL_FEATURES : List String := ["mes", "dia_año", "estacion_seca"]

/-- entrenar_modelo.py line 53: the full fit-time feature order. -/
def ALL_FEATURES : List String := SENSOR_FEATURES ++ TEMPORAL_FEATURES

/-- entrenar_modelo.py line 149: `metadata['features'] = ALL_FEATURES`,
the feature list the persisted metadata carries. -/
def metadataFeatures : List String := ALL_FEATURES

/-- predecir_con_sensores.py lines 106-118: the key order of the `datos`
dict that `predecir_incendio` turns into the one-row frame passed to
`predict_proba`.  The wrapper never consults the loaded metadata when
building it, so the model takes the metadata feature list as an argument
and ignores it, exactly as the source does. -/
def wrapperColumns (_metaFeatures : List String) : List String :=
  ["temperatura_media", "humedad_relativa", "viento_max",
   "precipitacion_7d", "precipitacion_14d", "precipitacion_30d",
   "mes", "dia_año", "estacion_seca"]

/-- predecir_con_sensores.py lines 122-130: the risk level returned by
`predecir_incendio` for a classifier probability. -/
def nivel (probabilidad : ℚ) : String :=
  if 7/10 < probabilidad then "ALTO"
  else if 1/2 < probabilidad then "MODERADO"
  else if 3/10 < probabilidad then "BAJO"
  else "MUY BAJO"

/-! ## IEEE-754 binary64 model

The source computes grid keys with numpy float64 arithmetic.  This model
represents every double by its exact rational value and rounds an exact
rational to the nearest representable double (ties to even), which is
IEEE-754 round-to-nearest for the normal range — all values arising in
the grid-key computations are normal.  It is used only by the claims
about binary floating-point key behaviour. -/

/-- Largest `e` with `2 ^ e ≤ q`, for positive `q`: the binade exponent
used by the rounding. -/
def floorLog2 (q : ℚ) : ℤ := Int.log 2 q

/-- Nearest binary64 value of a positive rational: 53-bit mantissa,
ties to even. -/
def toF64pos (q : ℚ) : ℚ :=
  (roundHalfEven (q * (2 : ℚ) ^ ((52 : ℤ) - floorLog2 q)) : ℚ) *
    (2 : ℚ) ^ (floorLog2 q - 52)

/-- Nearest binary64 value of a rational (round to nearest, ties to
even). -/
def toF64 (q : ℚ) : ℚ :=
  if q < 0 then -(toF64pos (-q)) else if q = 0 then 0 else toF64pos q

/-- float64 product: the exact product, rounded. -/
def mulF (a b : ℚ) : ℚ := toF64 (a * b)

/-- float64 quotient: the exact quotient, rounded. -/
def divF (a b : ℚ) : ℚ := toF64 (a / b)

/-- The double actually stored for the literal `0.005` (GRID_SIZE). -/
def GRID_SIZE_F64 : ℚ := toF64 GRID_SIZE

/-- Lines 49-50 as float64 executes them: `(lat / GRID_SIZE).round() *
GRID_SIZE` with a float division, a ties-to-even round (`.round()` gives
an exactly representable integer) and a float multiplication. -/
def gridLatF64 (x : ℚ) : ℚ :=
  mulF ((roundHalfEven (divF x GRID_SIZE_F64) : ℚ)) GRID_SIZE_F64

/-- Python's `round(x, 4)` on a double `x` (line 71): the exact value of
`x` is rounded to the nearest multiple of `1/10^4` (ties to even), and the
result is the nearest double to that decimal. -/
def pyRound4F64 (x : ℚ) : ℚ := toF64 ((roundHalfEven (x * 10000) : ℚ) / 10000)

/-! ## Concrete instances used by the claims -/

/-- The 7-day example series of claim C2, anchored at event date 100:
precipitation 1.0 on each of the 7 days before the event and 100.0 on the
event day itself. -/
def c2series : List WeatherEntry :=
  ((List.range 7).map (fun i =>
    ⟨93 + (i : ℤ), none, none, none, none, some 1, none⟩)) ++
    [⟨100, none, none, none, none, some 100, none⟩]

/-- The C9 witness cache: one cell (3, -76) whose fetched series starts at
the cell's minimum (and only) event date 100, so the [93, 99] window has
no entry at all. -/
def c9cache : WeatherCache :=
  [((3, -76), [⟨100, some 30, some 18, some 24, some 40, some 2, some 12⟩])]

/-- The C9 witness event row at cell (3, -76), day 100. -/
def c9row : EventRow := ⟨100, 3, -76, 1⟩

/-- A one-detection input for the C4 instance: a single valid detection
on day 15706 at (3.45, -76.5), giving exactly one positive event. -/
def c4raw : List RawFire :=
  [⟨some 15706, some (69/20), some (-153/2), 300, 5, 80⟩]

/-- Five draws (the full budget for one positive event), every one
colliding with the positive key, so every one is rejected. -/
def c4draws : List Key := List.replicate 5 (15706, 69/20, -153/2)

/-- End-to-end scenario input: three detections on day 15712 (2013-01-07,
a January day) whose coordinates all discretize to the cell
(3.45, -76.5). -/
def e2eRaw : List RawFire :=
  [⟨some 15712, some (69/20), some (-153/2), 305, 7, 80⟩,
   ⟨some 15712, some (3451/1000), some (-153/2), 310, 8, 75⟩,
   ⟨some 15712, some (69/20), some (-76501/1000), 290, 6, 60⟩]

/-- End-to-end scenario draws: the full budget of 5 = 1 × 5 draws; two
collide with the positive key and are rejected, one lands on an uncached
cell, and one non-positive key is drawn twice. -/
def e2eDraws : List Key :=
  [(15712, 69/20, -153/2),
   (15800, 69/20, -153/2),
   (15800, 69/20, -153/2),
   (16000, 7/2, -76),
   (15712, 69/20, -153/2)]

/-- End-to-end scenario weather cache: the event cell has entries for both
of its event days; the cell (3.5, -76) was never fetched. -/
def e2eCache : WeatherCache :=
  [((69/20, -153/2),
    [⟨15712, some 31, some 18, some 25, some 38, some 0, some 14⟩,
     ⟨15800, some 29, some 17, some 23, some 55, some (3/2), some 10⟩])]

/-- The negative row drawn twice in the end-to-end scenario, with the
features the join computes for it. -/
def dupNegRow : EnrichedRow :=
  ⟨⟨15800, 69/20, -153/2, 0⟩, computeFeatures e2eCache ⟨15800, 69/20, -153/2, 0⟩⟩

/-! ## Evaluation lemmas for the rounding and float64 model -/

/-- Ties-to-even rounding evaluated below the midpoint. -/
lemma roundHalfEven_of_lt_half (n : ℤ) (q : ℚ) (h1 : (n : ℚ) ≤ q)
    (h2 : q < (n : ℚ) + 1/2) : roundHalfEven q = n := by
  have hf : ⌊q⌋ = n := Int.floor_eq_iff.mpr ⟨h1, by linarith⟩
  unfold roundHalfEven
  rw [hf, if_pos (by linarith)]

/-- Ties-to-even rounding evaluated above the midpoint. -/
lemma roundHalfEven_of_gt_half (n : ℤ) (q : ℚ) (h1 : (n : ℚ) + 1/2 < q)
    (h2 : q < (n : ℚ) + 1) : roundHalfEven q = n + 1 := by
  have hf : ⌊q⌋ = n := Int.floor_eq_iff.mpr ⟨by linarith, by linarith⟩
  unfold roundHalfEven
  rw [hf, if_neg (by linarith), if_pos (by linarith)]

/-- The binade exponent pinned by a two-sided power-of-two bound. -/
lemma floorLog2_eq (q : ℚ) (e : ℤ) (h1 : (2:ℚ) ^ e ≤ q)
    (h2 : q < (2:ℚ) ^ (e + 1)) : floorLog2 q = e := by
  have hq : 0 < q := lt_of_lt_of_le (by positivity) h1
  have hl : ((2:ℕ):ℚ) ^ Int.log 2 q ≤ q := Int.zpow_log_le_self (by norm_num) hq
  have hu : q < ((2:ℕ):ℚ) ^ (Int.log 2 q + 1) := Int.lt_zpow_succ_log_self (by norm_num) q
  have hcast : ((2:ℕ):ℚ) = (2:ℚ) := by norm_num
  rw [hcast] at hl hu
  have h3 : e < Int.log 2 q + 1 := by
    by_contra hcon
    push_neg at hcon
    have : (2:ℚ) ^ (Int.log 2 q + 1) ≤ (2:ℚ) ^ e := by
      apply zpow_le_zpow_right₀ (by norm_num) hcon
    linarith
  have h4 : Int.log 2 q < e + 1 := by
    by_contra hcon
    push_neg at hcon
    have : (2:ℚ) ^ (e + 1) ≤ (2:ℚ) ^ (Int.log 2 q) := by
      apply zpow_le_zpow_right₀ (by norm_num) hcon
    linarith
  unfold floorLog2
  omega

/-- Rounding a positive rational to binary64, assembled from its binade
exponent and rounded mantissa. -/
lemma toF64_eval (q : ℚ) (e m : ℤ) (hq : 0 < q) (he : floorLog2 q = e)
    (hm : roundHalfEven (q * (2:ℚ) ^ ((52:ℤ) - e)) = m) :
    toF64 q = (m : ℚ) * (2:ℚ) ^ (e - 52) := by
  unfold toF64 toF64pos
  rw [if_neg (by linarith), if_neg (by linarith), he, hm]

/-- The double stored for the literal 0.005 is slightly above 1/200. -/
lemma gridSizeF64_val : GRID_SIZE_F64 = 5764607523034235/1152921504606846976 := by
  unfold GRID_SIZE_F64 GRID_SIZE
  have h := toF64_eval (5/1000) (-8) 5764607523034235 (by norm_num)
    (floorLog2_eq _ _ (by norm_num) (by norm_num))
    (by
      have := roundHalfEven_of_gt_half 5764607523034234
        ((5/1000 : ℚ) * (2:ℚ) ^ ((52:ℤ) - (-8))) (by norm_num) (by norm_num)
      simpa using this)
  rw [h]
  norm_num

/-- The double stored for the literal 3.3 is slightly below 33/10. -/
lemma toF64_33_10 : toF64 (33/10) = 3715469692580659/1125899906842624 := by
  have h := toF64_eval (33/10) 1 7430939385161318 (by norm_num)
    (floorLog2_eq _ _ (by norm_num) (by norm_num))
    (roundHalfEven_of_lt_half 7430939385161318
      ((33/10 : ℚ) * (2:ℚ) ^ ((52:ℤ) - 1)) (by norm_num) (by norm_num))
  rw [h]
  norm_num

/-- The float64 division double(3.3) / double(0.005) lands exactly on
660. -/
lemma divF_33_10 :
    divF (3715469692580659/1125899906842624) (5764607523034235/1152921504606846976)
      = 660 := by
  unfold divF
  have h := toF64_eval
    ((3715469692580659/1125899906842624 : ℚ) / (5764607523034235/1152921504606846976))
    9 5805421394657280 (by norm_num)
    (floorLog2_eq _ _ (by norm_num) (by norm_num))
    (by
      have := roundHalfEven_of_gt_half 5805421394657279
        (((3715469692580659/1125899906842624 : ℚ) /
          (5764607523034235/1152921504606846976)) * (2:ℚ) ^ ((52:ℤ) - 9))
        (by norm_num) (by norm_num)
      simpa using this)
  rw [h]
  norm_num

/-- The float64 product 660 * double(0.005) rounds up to the double
3.3000000000000003, one ulp above double(3.3). -/
lemma mulF_660 :
    mulF 660 (5764607523034235/1152921504606846976)
      = 7430939385161319/2251799813685248 := by
  unfold mulF
  have h := toF64_eval ((660 : ℚ) * (5764607523034235/1152921504606846976))
    1 7430939385161319 (by norm_num)
    (floorLog2_eq _ _ (by norm_num) (by norm_num))
    (by
      have := roundHalfEven_of_gt_half 7430939385161318
        (((660 : ℚ) * (5764607523034235/1152921504606846976)) * (2:ℚ) ^ ((52:ℤ) - 1))
        (by norm_num) (by norm_num)
      simpa using this)
  rw [h]
  norm_num

/-- Python round(double(3.3), 4) gives back double(3.3). -/
lemma pyRound4F64_33_10 :
    pyRound4F64 (3715469692580659/1125899906842624)
      = 3715469692580659/1125899906842624 := by
  unfold pyRound4F64
  have hr : roundHalfEven ((3715469692580659/1125899906842624 : ℚ) * 10000) = 33000 := by
    have := roundHalfEven_of_gt_half 32999
      ((3715469692580659/1125899906842624 : ℚ) * 10000) (by norm_num) (by norm_num)
    simpa using this
  rw [hr]
  rw [show (((33000 : ℤ) : ℚ)) / 10000 = 33/10 by norm_num]
  exact toF64_33_10

/-! ## Claims -/

/-- C2: for every event row dated D and every N, the N-day precipitation
accumulator sums the cell's daily precipitation over exactly the series
entries with dates in [D-N, D-1], excluding day D itself; a series with
precipitation 1.0 on each of the 7 days before D and 100.0 on day D
yields a 7-day accumulator of 7.0, not 107.0. -/
theorem c2_rolling_window_excludes_event_day (wdf : List WeatherEntry) (D N : ℤ) :
    getPrecipAccumulated wdf D N =
      ((wdf.filter (fun e => decide (D - N ≤ e.date ∧ e.date ≤ D - 1))).map
        (fun e => e.precipitation_sum.getD 0)).sum ∧
      getPrecipAccumulated c2series 100 7 = 7 ∧
      getPrecipAccumulated c2series 100 7 ≠ 107 := by
  refine ⟨?_, by with_unfolding_all decide, by with_unfolding_all decide⟩
  have hf : wdf.filter (fun e => decide (D - N ≤ e.date ∧ e.date < D)) =
      wdf.filter (fun e => decide (D - N ≤ e.date ∧ e.date ≤ D - 1)) :=
    List.filter_congr (fun e _ => decide_eq_decide.mpr (by omega))
  unfold getPrecipAccumulated
  rw [hf]

/-- C5: the risk level returned by the inference wrapper is ALTO (HIGH)
iff p > 0.7, MODERADO iff 0.5 < p ≤ 0.7, BAJO iff 0.3 < p ≤ 0.5 and
MUY BAJO iff p ≤ 0.3; in particular 0.7 ↦ MODERADO (not ALTO),
0.71 ↦ ALTO, 0.55 ↦ MODERADO, 0.35 ↦ BAJO, 0.10 ↦ MUY BAJO. -/
theorem c5_risk_level_thresholds (p : ℚ) :
    (nivel p = "ALTO" ↔ 7/10 < p) ∧
      (nivel p = "MODERADO" ↔ 1/2 < p ∧ p ≤ 7/10) ∧
      (nivel p = "BAJO" ↔ 3/10 < p ∧ p ≤ 1/2) ∧
      (nivel p = "MUY BAJO" ↔ p ≤ 3/10) ∧
      nivel (7/10) = "MODERADO" ∧ nivel (71/100) = "ALTO" ∧
      nivel (55/100) = "MODERADO" ∧ nivel (35/100) = "BAJO" ∧
      nivel (1/10) = "MUY BAJO" := by
  refine ⟨?_, ?_, ?_, ?_, by with_unfolding_all decide,
    by with_unfolding_all decide, by with_unfolding_all decide,
    by with_unfolding_all decide, by with_unfolding_all decide⟩ <;>
    unfold nivel <;> split_ifs with h1 h2 h3 <;> simp <;>
    first
      | linarith
      | (constructor <;> linarith)
      | (intro h; linarith)

/-- C7: a row whose mean temperature, mean humidity or 7-day accumulator
is undefined never reaches the final table: membership there is exactly
membership among the enriched rows (unmodified, so nothing is imputed)
plus definedness of those three fields. -/
theorem c7_dropna_completeness (raw : List RawFire) (draws : List Key)
    (cache : WeatherCache) (r : EnrichedRow) :
    r ∈ datasetFinal raw draws cache ↔
      r ∈ enrichedRows raw draws cache ∧
        r.feat.temperatura_media.isSome = true ∧
        r.feat.humedad_relativa.isSome = true ∧
        r.feat.precipitacion_7d.isSome = true := by
  simp [datasetFinal, completo, List.mem_filter, Bool.and_eq_true, and_assoc]

/-- C9: whenever the row's cell is cached and the series has a same-day
entry, each N-day accumulator is a defined number equal to its window
sum; the 7-day one is 0 (not missing) when no entry falls in [D-7, D-1],
and it passes the 7-day part of the completeness filter. -/
theorem c9_empty_window_sums_to_zero (cache : WeatherCache) (row : EventRow)
    (wdf : List WeatherEntry) (e : WeatherEntry)
    (hc : cacheLookup cache (row.grid_lat, row.grid_lon) = some wdf)
    (he : wdf.find? (fun x => decide (x.date = row.date_only)) = some e) :
    (computeFeatures cache row).precipitacion_7d =
        some (getPrecipAccumulated wdf row.date_only 7) ∧
      (computeFeatures cache row).precipitacion_14d =
        some (getPrecipAccumulated wdf row.date_only 14) ∧
      (computeFeatures cache row).precipitacion_30d =
        some (getPrecipAccumulated wdf row.date_only 30) ∧
      (wdf.filter (fun x =>
          decide (row.date_only - 7 ≤ x.date ∧ x.date < row.date_only)) = [] →
        (computeFeatures cache row).precipitacion_7d = some 0) ∧
      (computeFeatures cache row).precipitacion_7d.isSome = true ∧
      (computeFeatures cache row).precipitacion_14d.isSome = true ∧
      (computeFeatures cache row).precipitacion_30d.isSome = true := by
  refine ⟨?_, ?_, ?_, ?_, ?_, ?_, ?_⟩
  · simp [computeFeatures, hc, he]
  · simp [computeFeatures, hc, he]
  · simp [computeFeatures, hc, he]
  · simp only [computeFeatures, hc, he]
    intro hw
    unfold getPrecipAccumulated
    rw [hw]
    rfl
  · simp [computeFeatures, hc, he]
  · simp [computeFeatures, hc, he]
  · simp [computeFeatures, hc, he]

/-- C9 witness: the theorem applied to the concrete cache whose fetched
range starts at the event date, so the 7-day window is empty and the
accumulator is still defined. -/
theorem c9_empty_window_sums_to_zero_witness :
    (computeFeatures c9cache c9row).precipitacion_7d.isSome = true :=
  (c9_empty_window_sums_to_zero c9cache c9row
    [⟨100, some 30, some 18, some 24, some 40, some 2, some 12⟩]
    ⟨100, some 30, some 18, some 24, some 40, some 2, some 12⟩
    (by with_unfolding_all decide) (by with_unfolding_all decide)).2.2.2.2.1

/-- C4: the sampler consumes exactly `len(eventos_positivos) * 5` draws
(one accept-or-discard decision per draw, the output being a sublist of
the draw sequence — no retry, no top-up), so the realized negative count
is at most the target, and for some realized draw sequence it is strictly
less. -/
theorem c4_fixed_draw_budget (raw : List RawFire) (draws : List Key)
    (h : draws.length = (eventosPositivos raw).length * negativeRatio) :
    (negativeSamples (eventosPositivos raw) draws).length ≤
        (eventosPositivos raw).length * negativeRatio ∧
      (negativeSamples (eventosPositivos raw) draws).Sublist draws ∧
      ∃ raw2 draws2,
        draws2.length = (eventosPositivos raw2).length * negativeRatio ∧
          (negativeSamples (eventosPositivos raw2) draws2).length <
            (eventosPositivos raw2).length * negativeRatio := by
  refine ⟨?_, ?_, c4raw, c4draws, by with_unfolding_all decide,
    by with_unfolding_all decide⟩
  · unfold negativeSamples
    exact h ▸ List.length_filter_le _ _
  · unfold negativeSamples
    exact List.filter_sublist _

/-- C4 witness: the draw budget discharged at the concrete one-positive
input with its five draws. -/
theorem c4_fixed_draw_budget_witness :
    (negativeSamples (eventosPositivos c4raw) c4draws).length ≤
      (eventosPositivos c4raw).length * negativeRatio :=
  (c4_fixed_draw_budget c4raw c4draws (by with_unfolding_all decide)).1

/-- C1: the positive-event keys carry no duplicates, every accepted
negative key differs from every positive key, no (date, grid cell) key
appears in the combined event table with both labels, and in the final
(weather-filtered) table the label-1 rows carry pairwise distinct keys
and no key appears with both labels. -/
theorem c1_no_duplicate_or_cross_label_keys (raw : List RawFire) (draws : List Key) (cache : WeatherCache) :
    (eventosPositivos raw).Nodup ∧
      (∀ k ∈ negativeSamples (eventosPositivos raw) draws,
        k ∉ eventosPositivos raw) ∧
      (∀ d la lo, ¬(EventRow.mk d la lo 1 ∈ dataset raw draws ∧
        EventRow.mk d la lo 0 ∈ dataset raw draws)) ∧
      (((datasetFinal raw draws cache).filter
          (fun r => r.event.incendio == 1)).map
        (fun r => (r.event.date_only, r.event.grid_lat, r.event.grid_lon))).Nodup ∧
      ∀ d la lo,
        ¬((∃ r1 ∈ datasetFinal raw draws cache, r1.event = EventRow.mk d la lo 1) ∧
          (∃ r2 ∈ datasetFinal raw draws cache, r2.event = EventRow.mk d la lo 0)) := by
  have hevent : ∀ r ∈ datasetFinal raw draws cache, r.event ∈ dataset raw draws := by
    intro r hr
    have hr2 : r ∈ enrichedRows raw draws cache := List.mem_of_mem_filter hr
    rcases List.mem_map.mp hr2 with ⟨row, hrow, rfl⟩
    exact hrow
  have hcross : ∀ d la lo, ¬(EventRow.mk d la lo 1 ∈ dataset raw draws ∧
      EventRow.mk d la lo 0 ∈ dataset raw draws) := by
    rintro d la lo ⟨h1, h0⟩
    rw [dataset, List.mem_mergeSort, List.mem_append] at h1 h0
    have hpos : (d, la, lo) ∈ eventosPositivos raw := by
      rcases h1 with hp | hn
      · rcases List.mem_map.mp hp with ⟨k, hk, hke⟩
        obtain ⟨k1, k2, k3⟩ := k
        simp only [EventRow.mk.injEq] at hke
        obtain ⟨rfl, rfl, rfl, -⟩ := hke
        exact hk
      · exfalso
        rcases List.mem_map.mp hn with ⟨k, hk, hke⟩
        simp [EventRow.mk.injEq] at hke
    have hneg : (d, la, lo) ∈ negativeSamples (eventosPositivos raw) draws := by
      rcases h0 with hp | hn
      · exfalso
        rcases List.mem_map.mp hp with ⟨k, hk, hke⟩
        simp [EventRow.mk.injEq] at hke
      · rcases List.mem_map.mp hn with ⟨k, hk, hke⟩
        obtain ⟨k1, k2, k3⟩ := k
        simp only [EventRow.mk.injEq] at hke
        obtain ⟨rfl, rfl, rfl, -⟩ := hke
        exact hk
    have h3 := (List.mem_filter.mp hneg).2
    simp at h3
    exact h3 hpos
  refine ⟨List.nodup_dedup _, ?_, hcross, ?_, ?_⟩
  · intro k hk
    have h2 := (List.mem_filter.mp hk).2
    simpa using h2
  · -- label-1 keys of the final table carry no duplicates
    have hperm : (dataset raw draws).Perm
        (((eventosPositivos raw).map (fun k => EventRow.mk k.1 k.2.1 k.2.2 1)) ++
          ((negativeSamples (eventosPositivos raw) draws).map
            (fun k => EventRow.mk k.1 k.2.1 k.2.2 0))) :=
      List.mergeSort_perm _ _
    have hfilterA : (((eventosPositivos raw).map
        (fun k => EventRow.mk k.1 k.2.1 k.2.2 1)).filter
          (fun r => r.incendio == 1)) =
        ((eventosPositivos raw).map (fun k => EventRow.mk k.1 k.2.1 k.2.2 1)) := by
      rw [List.filter_eq_self]
      intro r hr
      rcases List.mem_map.mp hr with ⟨k, -, rfl⟩
      rfl
    have hfilterB : (((negativeSamples (eventosPositivos raw) draws).map
        (fun k => EventRow.mk k.1 k.2.1 k.2.2 0)).filter
          (fun r => r.incendio == 1)) = [] := by
      rw [List.filter_eq_nil_iff]
      intro r hr
      rcases List.mem_map.mp hr with ⟨k, -, rfl⟩
      simp
    have hDkeys : (((dataset raw draws).filter (fun r => r.incendio == 1)).map
        (fun r => (r.date_only, r.grid_lat, r.grid_lon))).Nodup := by
      have hp2 : ((dataset raw draws).filter (fun r => r.incendio == 1)).Perm
          ((eventosPositivos raw).map (fun k => EventRow.mk k.1 k.2.1 k.2.2 1)) := by
        have := hperm.filter (fun r => r.incendio == 1)
        rwa [List.filter_append, hfilterA, hfilterB, List.append_nil] at this
      have hp3 := hp2.map (fun r => (r.date_only, r.grid_lat, r.grid_lon))
      rw [List.map_map] at hp3
      have : ((eventosPositivos raw).map
          ((fun r : EventRow => (r.date_only, r.grid_lat, r.grid_lon)) ∘
            (fun k => EventRow.mk k.1 k.2.1 k.2.2 1))) = eventosPositivos raw := by
        rw [show ((fun r : EventRow => (r.date_only, r.grid_lat, r.grid_lon)) ∘
            (fun k : Key => EventRow.mk k.1 k.2.1 k.2.2 1)) = id from rfl]
        exact List.map_id _
      rw [this] at hp3
      exact hp3.nodup_iff.mpr (List.nodup_dedup _)
    -- final label-1 rows are a sublist of the dataset label-1 rows, via events
    have hsub : (((datasetFinal raw draws cache).filter
          (fun r => r.event.incendio == 1)).map
        (fun r => (r.event.date_only, r.event.grid_lat, r.event.grid_lon))).Sublist
        ((((dataset raw draws).filter (fun r => r.incendio == 1)).map
          (fun r => (r.date_only, r.grid_lat, r.grid_lon)))) := by
      unfold datasetFinal enrichedRows
      rw [List.filter_map, List.filter_map, List.map_map]
      exact List.Sublist.map _ ((List.filter_sublist _).filter _)
    exact List.Nodup.sublist hsub hDkeys
  · rintro d la lo ⟨⟨r1, hr1, he1⟩, ⟨r2, hr2, he2⟩⟩
    exact hcross d la lo ⟨he1 ▸ hevent r1 hr1, he2 ▸ hevent r2 hr2⟩

/-- C6 counterexample: the fixed output order of the source has 17
columns, not 16, and in the end-to-end scenario every serialized row of
the (non-empty) final table carries 17 cells. -/
theorem c6_sixteen_columns_counterexample :
    cols_order.length = 17 ∧ cols_order.length ≠ 16 ∧
      datasetFinal e2eRaw e2eDraws e2eCache ≠ [] ∧
      ∀ r ∈ datasetFinal e2eRaw e2eDraws e2eCache,
        (serializeRow r).length = 17 ∧ (serializeRow r).length ≠ 16 := by
  with_unfolding_all decide

/-- C6 (amended): whenever the detections collapse to one positive event
and the sampler is given its budget of 5 draws, the final table holds at
most 6 rows, and every serialized row has exactly 17 cells, one per
column of `cols_order`. -/
theorem c6_output_shape (raw : List RawFire) (draws : List Key)
    (cache : WeatherCache) (hp : (eventosPositivos raw).length = 1)
    (hd : draws.length = negativeRatio) :
    (datasetFinal raw draws cache).length ≤ 6 ∧
      (datasetFinal raw draws cache).length ≤ 1 + negativeRatio ∧
      ∀ r ∈ datasetFinal raw draws cache,
        (serializeRow r).length = cols_order.length ∧
          (serializeRow r).length = 17 := by
  have h1 : (dataset raw draws).length ≤ 6 := by
    rw [dataset, List.length_mergeSort, List.length_append, List.length_map,
      List.length_map, hp]
    have h2 : (negativeSamples (eventosPositivos raw) draws).length ≤ draws.length := by
      unfold negativeSamples
      exact List.length_filter_le _ _
    rw [show negativeRatio = 5 from rfl] at hd
    omega
  have h3 : (datasetFinal raw draws cache).length ≤ 6 := by
    calc (datasetFinal raw draws cache).length
        ≤ (enrichedRows raw draws cache).length := List.length_filter_le _ _
      _ = (dataset raw draws).length := by
          unfold enrichedRows
          exact List.length_map _ _
      _ ≤ 6 := h1
  exact ⟨h3, by simpa using h3, fun r _ => ⟨rfl, rfl⟩⟩

/-- C6 witness: the amended output shape discharged at the end-to-end
scenario (3 January detections at one cell, 5 draws). -/
theorem c6_output_shape_witness :
    (datasetFinal e2eRaw e2eDraws e2eCache).length ≤ 6 :=
  (c6_output_shape e2eRaw e2eDraws e2eCache (by with_unfolding_all decide)
    (by with_unfolding_all decide)).1

/-- C10: accepted negative draws are never deduplicated — in the
end-to-end scenario the key (15800, 3.45, -76.5) is not a positive key,
is drawn twice, is accepted twice, and the final table holds two
identical label-0 rows for it. -/
theorem c10_duplicate_negatives_survive :
    e2eDraws.count (15800, 69/20, -153/2) = 2 ∧
      ((15800 : ℤ), (69/20 : ℚ), (-153/2 : ℚ)) ∉ eventosPositivos e2eRaw ∧
      (negativeSamples (eventosPositivos e2eRaw) e2eDraws).count
        (15800, 69/20, -153/2) = 2 ∧
      (datasetFinal e2eRaw e2eDraws e2eCache).count dupNegRow = 2 ∧
      dupNegRow.event.incendio = 0 := by
  with_unfolding_all decide

/-- C8 counterexample: the wrapper's column order is hardcoded — it does
not follow the metadata feature list it is handed, so a metadata list it
was not written for is not reproduced. -/
theorem c8_wrapper_hardcodes_counterexample :
    wrapperColumns ["x"] ≠ ["x"] := by decide

/-- C8 (amended): the wrapper's hardcoded column order coincides with the
feature list the trainer persists in its metadata (SENSOR plus TEMPORAL
features, in fit order), so for the metadata this repository actually
produces the forwarded vector matches the fit-time ordering — but it is
hardcoded, not built from the metadata. -/
theorem c8_wrapper_order_matches_persisted_metadata :
    wrapperColumns metadataFeatures = metadataFeatures ∧
      metadataFeatures = ALL_FEATURES ∧
      ALL_FEATURES = SENSOR_FEATURES ++ TEMPORAL_FEATURES := by decide

/-- C3: under IEEE-754 float64 as the source executes it, the key the
positive-event rule computes for the in-bounding-box latitude
double(3.3) differs from the key the negative-sampling grid rule
computes for the same cell, even though both keys lie within half a cell
of the cell center 3.3 — while under exact arithmetic both rules give
exactly 3.3.  The grid keys fragment: a negative draw at this cell can
never match the positive key. -/
theorem c3_float64_key_fragmentation :
    gridLatF64 (toF64 (33/10)) ≠ pyRound4F64 (toF64 (33/10)) ∧
      |gridLatF64 (toF64 (33/10)) - 33/10| < GRID_SIZE / 2 ∧
      |pyRound4F64 (toF64 (33/10)) - 33/10| < GRID_SIZE / 2 ∧
      discretize (33/10) = 33/10 ∧ round4 (33/10) = 33/10 := by
  have hpos : gridLatF64 (toF64 (33/10)) = 7430939385161319/2251799813685248 := by
    rw [toF64_33_10]
    unfold gridLatF64
    rw [gridSizeF64_val, divF_33_10]
    rw [roundHalfEven_of_lt_half 660 660 (by norm_num) (by norm_num)]
    rw [show (((660 : ℤ) : ℚ)) = 660 by norm_num]
    exact mulF_660
  have hneg : pyRound4F64 (toF64 (33/10)) = 3715469692580659/1125899906842624 := by
    rw [toF64_33_10]
    exact pyRound4F64_33_10
  refine ⟨?_, ?_, ?_, ?_, ?_⟩
  · rw [hpos, hneg]
    norm_num
  · rw [hpos]
    unfold GRID_SIZE
    rw [abs_sub_lt_iff]
    constructor <;> norm_num
  · rw [hneg]
    unfold GRID_SIZE
    rw [abs_sub_lt_iff]
    constructor <;> norm_num
  · unfold discretize
    rw [show ((33/10 : ℚ) / GRID_SIZE) = 660 by unfold GRID_SIZE; norm_num]
    rw [roundHalfEven_of_lt_half 660 660 (by norm_num) (by norm_num)]
    unfold GRID_SIZE
    norm_num
  · unfold round4
    rw [show ((33/10 : ℚ) * 10000) = 33000 by norm_num]
    rw [roundHalfEven_of_lt_half 33000 33000 (by norm_num) (by norm_num)]
    norm_num
